import Mathlib

/-!
Shallow embedding of the node-opus binding layer (src/node-opus.cc).

The binding wraps the native Opus codec. The native library itself
(deps/opus) is outside the repository sources, so its primitives are
modelled as an abstract record of functions (OpusNative); the binding
logic — lazy handle creation, argument marshaling, result buffer
construction and error mapping — is translated directly from the C++
source. A native call performed on a NULL handle is undefined behavior
in C; it is represented by the distinguished outcome JsOutcome.nullDeref.
-/

/-! Constants from node-opus.cc lines 15-18. -/

def FRAME_SIZE : Int := 960

def MAX_FRAME_SIZE : Int := 6 * 960

def MAX_PACKET_SIZE : Int := 3 * 1276

def BITRATE : Int := 64000

/-! Native opus status codes, from the opus public header
    (opus_defines.h of the wrapped library). -/

def OPUS_OK : Int := 0

def OPUS_BAD_ARG : Int := -1

def OPUS_BUFFER_TOO_SMALL : Int := -2

def OPUS_INTERNAL_ERROR : Int := -3

def OPUS_INVALID_PACKET : Int := -4

def OPUS_UNIMPLEMENTED : Int := -5

def OPUS_INVALID_STATE : Int := -6

def OPUS_ALLOC_FAIL : Int := -7

def OPUS_APPLICATION_VOIP : Int := 2048

def OPUS_APPLICATION_AUDIO : Int := 2049

def OPUS_APPLICATION_RESTRICTED_LOWDELAY : Int := 2051

/-- Translation of getDecodeError (node-opus.cc lines 20-39): the fixed
table from native status codes to human-readable messages, with a
default case for every other code. -/
def getDecodeError (decodedSamples : Int) : String :=
  if decodedSamples = OPUS_BAD_ARG then
    "One or more invalid/out of range arguments"
  else if decodedSamples = OPUS_BUFFER_TOO_SMALL then
    "The mode struct passed is invalid"
  else if decodedSamples = OPUS_INTERNAL_ERROR then
    "An internal error was detected"
  else if decodedSamples = OPUS_INVALID_PACKET then
    "The compressed data passed is corrupted"
  else if decodedSamples = OPUS_UNIMPLEMENTED then
    "Invalid/unsupported request number."
  else if decodedSamples = OPUS_INVALID_STATE then
    "An encoder or decoder structure is invalid or already freed."
  else if decodedSamples = OPUS_ALLOC_FAIL then
    "Memory allocation has failed"
  else
    "Unknown OPUS error"

/-- Abstract state of a native opus encoder handle. Modelled from the spec:
the only piece of native encoder state the binding reads back is the
bitrate setting (OPUS_SET_BITRATE / OPUS_GET_BITRATE round-trip in the
spec, section 8), so the handle is modelled as that stored setting. -/
structure OpusEncoderHandle where
  bitrate : Int
deriving Repr, DecidableEq

/-- Abstract native opus decoder handle: the binding never inspects it. -/
abbrev OpusDecoderHandle := Unit

/-- The native opus primitives used by the binding, as an abstract record:
the native library is outside the repository sources. Creation functions
return the (possibly absent) handle together with the error code written
through the out-parameter; opus_encode takes the PCM bytes, the frame
size and the output capacity and returns the packet length or a negative
status; opus_decode takes the packet bytes, their length, the output
frame capacity and the fec flag and returns the decoded sample count or
a negative status. -/
structure OpusNative where
  opus_encoder_create : Int → Int → Int → Option OpusEncoderHandle × Int
  opus_decoder_create : Int → Int → Option OpusDecoderHandle × Int
  opus_encode : OpusEncoderHandle → List Int → Int → Int → Int
  opus_decode : OpusDecoderHandle → List Int → Int → Int → Int → Int

/-- Modelled from the spec: opus_encoder_ctl with OPUS_SET_BITRATE stores
the requested bitrate in the native encoder state (spec sections 4.1 and
8: setBitrate applies the value to the encoder control interface). -/
def opus_encoder_ctl_SET_BITRATE (enc : OpusEncoderHandle) (bitrate : Int) :
    OpusEncoderHandle :=
  { enc with bitrate := bitrate }

/-- Modelled from the spec: opus_encoder_ctl with OPUS_GET_BITRATE reads
the current bitrate setting back from the native encoder state. -/
def opus_encoder_ctl_GET_BITRATE (enc : OpusEncoderHandle) : Int :=
  enc.bitrate

/-- Outcome of a binding method as observed by the JavaScript caller:
a returned value, a thrown TypeError (NanThrowTypeError), or a native
call performed on a NULL handle (undefined behavior in the C++ source,
kept as a distinguished outcome here). -/
inductive JsOutcome (α : Type) where
  | ok : α → JsOutcome α
  | thrown : String → JsOutcome α
  | nullDeref : JsOutcome α
deriving Repr, DecidableEq

/-- A node Buffer result, represented by its reported byte length. The
source passes the raw opus_encode return value as this length, so it is
an Int, not a Nat: nothing in the source keeps it non-negative. -/
structure NodeBuffer where
  byteLength : Int
deriving Repr, DecidableEq

/-- The wrapper object (class OpusEncoder, node-opus.cc lines 41-207):
lazily created encoder and decoder handles plus the immutable
configuration fixed at construction. -/
structure OpusEncoder where
  encoder : Option OpusEncoderHandle
  decoder : Option OpusDecoderHandle
  rate : Int
  channels : Int
  application : Int
deriving Repr, DecidableEq

/-- Constructor (NAN_METHOD New, lines 168-184). Modelled from the spec
for the OPT_INT_ARG macro of common.h (not under the sources): an
optional integer argument falls back to the stated default. Defaults:
rate 48000, channels 1, application OPUS_APPLICATION_AUDIO. Both handles
start absent (lines 68-73). -/
def OpusEncoder.New (rate channels application : Option Int) : OpusEncoder :=
  { encoder := none
    decoder := none
    rate := rate.getD 48000
    channels := channels.getD 1
    application := application.getD OPUS_APPLICATION_AUDIO }

/-- EnsureEncoder (lines 54-59): if the encoder handle exists, return 0;
otherwise call opus_encoder_create, store whatever handle it produced
(NULL on failure) and return the error code. -/
def OpusEncoder.EnsureEncoder (native : OpusNative) (self : OpusEncoder) :
    OpusEncoder × Int :=
  match self.encoder with
  | some _ => (self, 0)
  | none =>
      let r := native.opus_encoder_create self.rate self.channels self.application
      ({ self with encoder := r.1 }, r.2)

/-- EnsureDecoder (lines 60-65): the decoder-side counterpart. -/
def OpusEncoder.EnsureDecoder (native : OpusNative) (self : OpusEncoder) :
    OpusEncoder × Int :=
  match self.decoder with
  | some _ => (self, 0)
  | none =>
      let r := native.opus_decoder_create self.rate self.channels
      ({ self with decoder := r.1 }, r.2)

/-- Encode (NAN_METHOD, lines 88-110). The EnsureEncoder return value is
discarded, exactly as in the source (line 93). The frame size is the
byte length divided by 2 and by the channel count (line 102). The
opus_encode return value flows unchecked into the result buffer length
(lines 105-108). The optional second argument defaults to
MAX_PACKET_SIZE (line 97). -/
def OpusEncoder.Encode (native : OpusNative) (self : OpusEncoder)
    (pcmBuffer : List Int) (maxPacketSizeArg : Option Int) :
    OpusEncoder × JsOutcome NodeBuffer :=
  let self := (self.EnsureEncoder native).1
  let maxPacketSize := maxPacketSizeArg.getD MAX_PACKET_SIZE
  match self.encoder with
  | none => (self, JsOutcome.nullDeref)
  | some enc =>
      let frameSize : Int := (pcmBuffer.length : Int) / 2 / self.channels
      let compressedLength := native.opus_encode enc pcmBuffer frameSize maxPacketSize
      (self, JsOutcome.ok { byteLength := compressedLength })

/-- Decode (NAN_METHOD, lines 112-141). The EnsureDecoder return value is
discarded (line 122). opus_decode is invoked with output capacity
MAX_FRAME_SIZE and fec 0 (line 130); a negative return throws the
getDecodeError message (lines 132-135); otherwise the result buffer
length is decodedSamples * 2 * channels (line 138). -/
def OpusEncoder.Decode (native : OpusNative) (self : OpusEncoder)
    (compressedBuffer : List Int) :
    OpusEncoder × JsOutcome NodeBuffer :=
  let self := (self.EnsureDecoder native).1
  match self.decoder with
  | none => (self, JsOutcome.nullDeref)
  | some dec =>
      let decodedSamples := native.opus_decode dec compressedBuffer
        (compressedBuffer.length : Int) MAX_FRAME_SIZE 0
      if decodedSamples < 0 then
        (self, JsOutcome.thrown (getDecodeError decodedSamples))
      else
        (self, JsOutcome.ok { byteLength := decodedSamples * 2 * self.channels })

/-- SetBitrate (NAN_METHOD, lines 143-154): ensure the encoder (error
discarded), then apply OPUS_SET_BITRATE through the control interface. -/
def OpusEncoder.SetBitrate (native : OpusNative) (self : OpusEncoder)
    (bitrate : Int) : OpusEncoder × JsOutcome Unit :=
  let self := (self.EnsureEncoder native).1
  match self.encoder with
  | none => (self, JsOutcome.nullDeref)
  | some enc =>
      ({ self with encoder := some (opus_encoder_ctl_SET_BITRATE enc bitrate) },
        JsOutcome.ok ())

/-- GetBitrate (NAN_METHOD, lines 156-166): ensure the encoder (error
discarded), then query OPUS_GET_BITRATE and return the integer. -/
def OpusEncoder.GetBitrate (native : OpusNative) (self : OpusEncoder) :
    OpusEncoder × JsOutcome Int :=
  let self := (self.EnsureEncoder native).1
  match self.encoder with
  | none => (self, JsOutcome.nullDeref)
  | some enc => (self, JsOutcome.ok (opus_encoder_ctl_GET_BITRATE enc))

/-! Concrete native layers and sessions used to evaluate the binding. -/

/-- A native layer whose creations succeed and whose opus_encode returns
its capacity argument, so the capacity value the binding passes to the
native call can be read off the result. -/
def echoCapacityNative : OpusNative :=
  { opus_encoder_create := fun _ _ _ => (some { bitrate := BITRATE }, 0)
    opus_decoder_create := fun _ _ => (some (), 0)
    opus_encode := fun _ _ _ maxDataBytes => maxDataBytes
    opus_decode := fun _ _ _ _ _ => 0 }

/-- A native layer whose opus_encode always fails with OPUS_BAD_ARG. -/
def badArgEncodeNative : OpusNative :=
  { opus_encoder_create := fun _ _ _ => (some { bitrate := BITRATE }, 0)
    opus_decoder_create := fun _ _ => (some (), 0)
    opus_encode := fun _ _ _ _ => OPUS_BAD_ARG
    opus_decode := fun _ _ _ _ _ => 0 }

/-- A native layer on which encoder creation fails: no handle, error
OPUS_BAD_ARG, as opus_encoder_create does for an unsupported rate. -/
def failCreateNative : OpusNative :=
  { opus_encoder_create := fun _ _ _ => (none, OPUS_BAD_ARG)
    opus_decoder_create := fun _ _ => (none, OPUS_BAD_ARG)
    opus_encode := fun _ _ _ _ => 0
    opus_decode := fun _ _ _ _ _ => 0 }

/-- A native layer whose opus_decode always reports a corrupted packet. -/
def invalidPacketNative : OpusNative :=
  { opus_encoder_create := fun _ _ _ => (some { bitrate := BITRATE }, 0)
    opus_decoder_create := fun _ _ => (some (), 0)
    opus_encode := fun _ _ _ _ => 0
    opus_decode := fun _ _ _ _ _ => OPUS_INVALID_PACKET }

/-- A native layer whose opus_decode always yields 960 samples and whose
opus_encode always yields a 50-byte packet. -/
def fixedResultNative : OpusNative :=
  { opus_encoder_create := fun _ _ _ => (some { bitrate := BITRATE }, 0)
    opus_decoder_create := fun _ _ => (some (), 0)
    opus_encode := fun _ _ _ _ => 50
    opus_decode := fun _ _ _ _ _ => 960 }

/-- A session built with all construction arguments omitted. -/
def sFresh : OpusEncoder := OpusEncoder.New none none none

/-- A session whose encoder handle has already been materialized. -/
def sReady : OpusEncoder := { sFresh with encoder := some { bitrate := BITRATE } }

/-! Claim theorems. -/

/-- C7: a session constructed with all configuration arguments omitted
defaults to sample rate 48000 Hz, channel count 1 and the audio
application profile (the native constant 2049). -/
theorem New_omitted_defaults :
    (OpusEncoder.New none none none).rate = 48000 ∧
    (OpusEncoder.New none none none).channels = 1 ∧
    (OpusEncoder.New none none none).application = OPUS_APPLICATION_AUDIO ∧
    OPUS_APPLICATION_AUDIO = 2049 :=
  ⟨rfl, rfl, rfl, rfl⟩

/-- C6 counterexample: encode called without a second argument passes
3828 bytes, not 3276, to the native encoder as the output capacity. The
capacity is read off through a native layer that echoes it back as the
packet length. -/
theorem Encode_default_capacity_ne_3276 :
    (OpusEncoder.Encode echoCapacityNative sReady [] none).2 =
      JsOutcome.ok { byteLength := 3828 } ∧ (3828 : Int) ≠ 3276 :=
  ⟨by decide, by decide⟩

/-- C6 amended: calling encode without an explicit second argument is
the same call as passing MAX_PACKET_SIZE, and MAX_PACKET_SIZE is
3 * 1276 = 3828 bytes. -/
theorem Encode_default_capacity (native : OpusNative) (s : OpusEncoder)
    (pcm : List Int) :
    OpusEncoder.Encode native s pcm none =
      OpusEncoder.Encode native s pcm (some MAX_PACKET_SIZE) ∧
    MAX_PACKET_SIZE = 3828 :=
  ⟨rfl, by decide⟩

/-- C10: MAX_PACKET_SIZE, the declared capacity of the fixed internal
output buffer outOpus, is 3 * 1276 = 3828 bytes, and the caller-supplied
maxPacketSize reaches the native encode call unclamped: with a native
layer echoing its capacity argument, every requested size mps, including
sizes beyond 3828, is handed to opus_encode and no check rejects it. -/
theorem Encode_capacity_unclamped :
    MAX_PACKET_SIZE = 3 * 1276 ∧ MAX_PACKET_SIZE = 3828 ∧
    ∀ mps : Int,
      (OpusEncoder.Encode echoCapacityNative sReady [] (some mps)).2 =
        JsOutcome.ok { byteLength := mps } :=
  ⟨rfl, by decide, fun _ => rfl⟩

/-- C1: when the native encoder reports a negative status (here
OPUS_BAD_ARG, as for a frame size the codec does not accept), Encode
raises no error at all: the negative status flows into the returned
buffer as its byte length, that is, it is returned as data. -/
theorem Encode_negative_status_returned_as_data :
    (OpusEncoder.Encode badArgEncodeNative sReady [] none).2 =
      JsOutcome.ok { byteLength := OPUS_BAD_ARG } ∧
    OPUS_BAD_ARG < 0 :=
  ⟨by decide, by decide⟩

/-- C2: on a fresh session whose configuration the native rejects
(opus_encoder_create yields no handle and the error OPUS_BAD_ARG),
Encode discards the EnsureEncoder error code and goes on to the native
encode call on a NULL encoder handle; the creation failure is never
surfaced to the caller as any error value. -/
theorem Encode_ignores_create_failure :
    (OpusEncoder.Encode failCreateNative sFresh [] none).2 =
      JsOutcome.nullDeref ∧
    (sFresh.EnsureEncoder failCreateNative).2 = OPUS_BAD_ARG :=
  ⟨by decide, by decide⟩

/-! Helper lemmas about EnsureEncoder / EnsureDecoder and the method
bodies, shared by the remaining claim theorems. -/

theorem EnsureEncoder_preserves (native : OpusNative) (s : OpusEncoder) :
    ((s.EnsureEncoder native).1).decoder = s.decoder ∧
    ((s.EnsureEncoder native).1).rate = s.rate ∧
    ((s.EnsureEncoder native).1).channels = s.channels ∧
    ((s.EnsureEncoder native).1).application = s.application := by
  rcases s with ⟨e, d, r, c, a⟩
  cases e <;> exact ⟨rfl, rfl, rfl, rfl⟩

theorem EnsureDecoder_preserves (native : OpusNative) (s : OpusEncoder) :
    ((s.EnsureDecoder native).1).encoder = s.encoder ∧
    ((s.EnsureDecoder native).1).rate = s.rate ∧
    ((s.EnsureDecoder native).1).channels = s.channels ∧
    ((s.EnsureDecoder native).1).application = s.application := by
  rcases s with ⟨e, d, r, c, a⟩
  cases d <;> exact ⟨rfl, rfl, rfl, rfl⟩

theorem EnsureEncoder_of_some (native : OpusNative) (s : OpusEncoder)
    (enc : OpusEncoderHandle) (h : s.encoder = some enc) :
    s.EnsureEncoder native = (s, 0) := by
  unfold OpusEncoder.EnsureEncoder
  rw [h]

theorem EnsureEncoder_isSome (native : OpusNative) (s : OpusEncoder) :
    ((s.EnsureEncoder native).1).encoder.isSome =
      (s.encoder.isSome ||
        (native.opus_encoder_create s.rate s.channels s.application).1.isSome) := by
  rcases s with ⟨e, d, r, c, a⟩
  cases e <;> simp [OpusEncoder.EnsureEncoder]

theorem EnsureDecoder_isSome (native : OpusNative) (s : OpusEncoder) :
    ((s.EnsureDecoder native).1).decoder.isSome =
      (s.decoder.isSome ||
        (native.opus_decoder_create s.rate s.channels).1.isSome) := by
  rcases s with ⟨e, d, r, c, a⟩
  cases d <;> simp [OpusEncoder.EnsureDecoder]

theorem Encode_state (native : OpusNative) (s : OpusEncoder)
    (pcm : List Int) (mps : Option Int) :
    (s.Encode native pcm mps).1 = (s.EnsureEncoder native).1 := by
  unfold OpusEncoder.Encode
  cases h : ((s.EnsureEncoder native).1).encoder <;> simp [h]

theorem Decode_state (native : OpusNative) (s : OpusEncoder)
    (data : List Int) :
    (s.Decode native data).1 = (s.EnsureDecoder native).1 := by
  unfold OpusEncoder.Decode
  cases h : ((s.EnsureDecoder native).1).decoder <;> simp [h]
  split <;> rfl

theorem GetBitrate_state (native : OpusNative) (s : OpusEncoder) :
    (s.GetBitrate native).1 = (s.EnsureEncoder native).1 := by
  unfold OpusEncoder.GetBitrate
  cases h : ((s.EnsureEncoder native).1).encoder <;> simp [h]

theorem SetBitrate_state_fields (native : OpusNative) (s : OpusEncoder)
    (b : Int) :
    (s.SetBitrate native b).1.decoder = ((s.EnsureEncoder native).1).decoder ∧
    (s.SetBitrate native b).1.encoder.isSome =
      ((s.EnsureEncoder native).1).encoder.isSome := by
  unfold OpusEncoder.SetBitrate
  cases h : ((s.EnsureEncoder native).1).encoder <;> simp [h]

theorem Decode_result (native : OpusNative) (s : OpusEncoder)
    (data : List Int) (dec : OpusDecoderHandle)
    (h : ((s.EnsureDecoder native).1).decoder = some dec) :
    (s.Decode native data).2 =
      if native.opus_decode dec data (data.length : Int) MAX_FRAME_SIZE 0 < 0 then
        JsOutcome.thrown (getDecodeError
          (native.opus_decode dec data (data.length : Int) MAX_FRAME_SIZE 0))
      else
        JsOutcome.ok { byteLength :=
          native.opus_decode dec data (data.length : Int) MAX_FRAME_SIZE 0 * 2 *
            s.channels } := by
  have hc := (EnsureDecoder_preserves native s).2.2.1
  simp only [OpusEncoder.Decode, h, hc]
  split <;> rfl

theorem Encode_result (native : OpusNative) (s : OpusEncoder)
    (pcm : List Int) (mpsArg : Option Int) (enc : OpusEncoderHandle)
    (h : ((s.EnsureEncoder native).1).encoder = some enc) :
    (s.Encode native pcm mpsArg).2 =
      JsOutcome.ok
        ⟨native.opus_encode enc pcm ((pcm.length : Int) / 2 / s.channels)
          (mpsArg.getD MAX_PACKET_SIZE)⟩ := by
  have hc := (EnsureEncoder_preserves native s).2.2.1
  simp only [OpusEncoder.Encode, h, hc]

/-- C3: whenever the native decode primitive reports a negative status,
Decode throws the getDecodeError message for that status; the fixed
table maps the seven known native codes to their human-readable strings
and every other code to the generic unknown-error message. -/
theorem Decode_negative_status_throws_table_message
    (native : OpusNative) (s : OpusEncoder) (data : List Int) (r : Int)
    (hd : ((s.EnsureDecoder native).1).decoder.isSome = true)
    (hr : native.opus_decode () data (data.length : Int) MAX_FRAME_SIZE 0 = r)
    (hneg : r < 0) :
    (s.Decode native data).2 = JsOutcome.thrown (getDecodeError r) ∧
    getDecodeError OPUS_BAD_ARG = "One or more invalid/out of range arguments" ∧
    getDecodeError OPUS_BUFFER_TOO_SMALL = "The mode struct passed is invalid" ∧
    getDecodeError OPUS_INTERNAL_ERROR = "An internal error was detected" ∧
    getDecodeError OPUS_INVALID_PACKET = "The compressed data passed is corrupted" ∧
    getDecodeError OPUS_UNIMPLEMENTED = "Invalid/unsupported request number." ∧
    getDecodeError OPUS_INVALID_STATE =
      "An encoder or decoder structure is invalid or already freed." ∧
    getDecodeError OPUS_ALLOC_FAIL = "Memory allocation has failed" ∧
    ∀ c : Int, c ≠ OPUS_BAD_ARG → c ≠ OPUS_BUFFER_TOO_SMALL →
      c ≠ OPUS_INTERNAL_ERROR → c ≠ OPUS_INVALID_PACKET →
      c ≠ OPUS_UNIMPLEMENTED → c ≠ OPUS_INVALID_STATE →
      c ≠ OPUS_ALLOC_FAIL → getDecodeError c = "Unknown OPUS error" := by
  refine ⟨?_, rfl, rfl, rfl, rfl, rfl, rfl, rfl, ?_⟩
  · obtain ⟨dec, hdec⟩ := Option.isSome_iff_exists.mp hd
    rw [Decode_result native s data dec hdec]
    cases dec
    rw [hr, if_pos hneg]
  · intro c h1 h2 h3 h4 h5 h6 h7
    unfold getDecodeError
    rw [if_neg h1, if_neg h2, if_neg h3, if_neg h4, if_neg h5, if_neg h6, if_neg h7]

theorem Decode_negative_status_throws_table_message_witness :
    (OpusEncoder.Decode invalidPacketNative sFresh [0]).2 =
      JsOutcome.thrown (getDecodeError (-4)) :=
  (Decode_negative_status_throws_table_message invalidPacketNative sFresh [0]
    (-4) (by decide) (by decide) (by decide)).1

/-- C4: when the native decode primitive, invoked with the fec flag 0
(forward error correction disabled), returns a non-negative sample count
n, Decode returns a buffer of byte length n * 2 * channels. -/
theorem Decode_success_fec_disabled_length
    (native : OpusNative) (s : OpusEncoder) (data : List Int) (n : Int)
    (hd : ((s.EnsureDecoder native).1).decoder.isSome = true)
    (hr : native.opus_decode () data (data.length : Int) MAX_FRAME_SIZE 0 = n)
    (hn : 0 ≤ n) :
    (s.Decode native data).2 =
      JsOutcome.ok { byteLength := n * 2 * s.channels } := by
  obtain ⟨dec, hdec⟩ := Option.isSome_iff_exists.mp hd
  rw [Decode_result native s data dec hdec]
  cases dec
  rw [hr, if_neg (not_lt.mpr hn)]

theorem Decode_success_fec_disabled_length_witness :
    (OpusEncoder.Decode fixedResultNative sFresh [0]).2 =
      JsOutcome.ok { byteLength := 960 * 2 * 1 } :=
  Decode_success_fec_disabled_length fixedResultNative sFresh [0] 960
    (by decide) (by decide) (by decide)

/-- C5: when the PCM byte length is an exact multiple of channels * 2
and the native encoder succeeds within its contract (a positive packet
length of at most the requested capacity), encode returns a buffer that
is non-empty, at most maxPacketSize long, and exactly as long as the
length the native encoder reported. -/
theorem Encode_success_length
    (native : OpusNative) (s : OpusEncoder) (pcm : List Int)
    (mpsArg : Option Int) (k : Nat) (enc : OpusEncoderHandle) (r : Int)
    (halign : pcm.length = k * (s.channels.toNat * 2))
    (he : ((s.EnsureEncoder native).1).encoder = some enc)
    (hr : native.opus_encode enc pcm ((pcm.length : Int) / 2 / s.channels)
        (mpsArg.getD MAX_PACKET_SIZE) = r)
    (hpos : 0 < r) (hle : r ≤ mpsArg.getD MAX_PACKET_SIZE) :
    ∃ buf : NodeBuffer,
      (s.Encode native pcm mpsArg).2 = JsOutcome.ok buf ∧
      buf.byteLength = r ∧ 0 < buf.byteLength ∧
      buf.byteLength ≤ mpsArg.getD MAX_PACKET_SIZE := by
  refine ⟨⟨r⟩, ?_, rfl, hpos, hle⟩
  rw [Encode_result native s pcm mpsArg enc he, hr]

theorem Encode_success_length_witness :
    (List.replicate 4 (0 : Int)).length = 2 * (sReady.channels.toNat * 2) ∧
    ∃ buf : NodeBuffer,
      (sReady.Encode fixedResultNative (List.replicate 4 0) (some 100)).2 =
        JsOutcome.ok buf ∧ buf.byteLength = 50 ∧ 0 < buf.byteLength ∧
        buf.byteLength ≤ (some (100 : Int)).getD MAX_PACKET_SIZE :=
  ⟨by decide,
    Encode_success_length fixedResultNative sReady (List.replicate 4 0) (some 100)
      2 { bitrate := BITRATE } 50 (by decide) (by decide) (by decide) (by decide)
      (by decide)⟩

/-- C8: if setBitrate 64000 runs to completion (its encoder handle was
available, so the control call happened), an immediately following
getBitrate on the resulting session returns 64000: the set value is
stored through the control interface and the get reads it back. -/
theorem SetBitrate_then_GetBitrate
    (native : OpusNative) (s : OpusEncoder)
    (hok : (s.SetBitrate native 64000).2 = JsOutcome.ok ()) :
    ((s.SetBitrate native 64000).1.GetBitrate native).2 = JsOutcome.ok 64000 := by
  cases h : ((s.EnsureEncoder native).1).encoder with
  | none =>
      exfalso
      simp only [OpusEncoder.SetBitrate, h] at hok
      exact absurd hok (by simp)
  | some enc =>
      have hset : s.SetBitrate native 64000 =
          ({ (s.EnsureEncoder native).1 with
              encoder := some (opus_encoder_ctl_SET_BITRATE enc 64000) },
            JsOutcome.ok ()) := by
        simp only [OpusEncoder.SetBitrate, h]
      rw [hset]
      rfl

theorem SetBitrate_then_GetBitrate_witness :
    ((sFresh.SetBitrate echoCapacityNative 64000).1.GetBitrate
        echoCapacityNative).2 = JsOutcome.ok 64000 :=
  SetBitrate_then_GetBitrate echoCapacityNative sFresh (by decide)

/-- C9: per session, the encoder handle is materialized by the first
encode, setBitrate or getBitrate call and the decoder handle by the
first decode call (whenever native creation succeeds); encoder-side
calls never touch the decoder handle and decode never touches the
encoder handle; and once a handle is present no operation, successful
or failed, ever puts it back to the absent state. -/
theorem handle_lifecycle
    (native m : OpusNative) (s : OpusEncoder) (pcm data : List Int)
    (mps : Option Int) (b : Int)
    (hce : (native.opus_encoder_create s.rate s.channels
        s.application).1.isSome = true)
    (hcd : (native.opus_decoder_create s.rate s.channels).1.isSome = true) :
    ((s.Encode native pcm mps).1.encoder.isSome = true ∧
     (s.SetBitrate native b).1.encoder.isSome = true ∧
     (s.GetBitrate native).1.encoder.isSome = true ∧
     (s.Decode native data).1.decoder.isSome = true) ∧
    ((s.Encode m pcm mps).1.decoder = s.decoder ∧
     (s.SetBitrate m b).1.decoder = s.decoder ∧
     (s.GetBitrate m).1.decoder = s.decoder ∧
     (s.Decode m data).1.encoder = s.encoder) ∧
    (s.encoder.isSome = true →
      (s.Encode m pcm mps).1.encoder.isSome = true ∧
      (s.SetBitrate m b).1.encoder.isSome = true ∧
      (s.GetBitrate m).1.encoder.isSome = true) ∧
    (s.decoder.isSome = true →
      (s.Decode m data).1.decoder.isSome = true) := by
  refine ⟨⟨?_, ?_, ?_, ?_⟩, ⟨?_, ?_, ?_, ?_⟩, ?_, ?_⟩
  · rw [Encode_state, EnsureEncoder_isSome, hce, Bool.or_true]
  · rw [(SetBitrate_state_fields native s b).2, EnsureEncoder_isSome, hce,
      Bool.or_true]
  · rw [GetBitrate_state, EnsureEncoder_isSome, hce, Bool.or_true]
  · rw [Decode_state, EnsureDecoder_isSome, hcd, Bool.or_true]
  · rw [Encode_state]; exact (EnsureEncoder_preserves m s).1
  · exact ((SetBitrate_state_fields m s b).1).trans (EnsureEncoder_preserves m s).1
  · rw [GetBitrate_state]; exact (EnsureEncoder_preserves m s).1
  · rw [Decode_state]; exact (EnsureDecoder_preserves m s).1
  · intro h
    have he : ((s.EnsureEncoder m).1).encoder.isSome = true := by
      rw [EnsureEncoder_isSome, h, Bool.true_or]
    exact ⟨by rw [Encode_state]; exact he,
      by rw [(SetBitrate_state_fields m s b).2]; exact he,
      by rw [GetBitrate_state]; exact he⟩
  · intro h
    rw [Decode_state, EnsureDecoder_isSome, h, Bool.true_or]

theorem handle_lifecycle_witness :
    (echoCapacityNative.opus_encoder_create sFresh.rate sFresh.channels
        sFresh.application).1.isSome = true ∧
    (echoCapacityNative.opus_decoder_create sFresh.rate
        sFresh.channels).1.isSome = true ∧
    (((sFresh.Encode echoCapacityNative [] none).1.encoder.isSome = true ∧
      (sFresh.SetBitrate echoCapacityNative 0).1.encoder.isSome = true ∧
      (sFresh.GetBitrate echoCapacityNative).1.encoder.isSome = true ∧
      (sFresh.Decode echoCapacityNative []).1.decoder.isSome = true) ∧
     ((sFresh.Encode echoCapacityNative [] none).1.decoder = sFresh.decoder ∧
      (sFresh.SetBitrate echoCapacityNative 0).1.decoder = sFresh.decoder ∧
      (sFresh.GetBitrate echoCapacityNative).1.decoder = sFresh.decoder ∧
      (sFresh.Decode echoCapacityNative []).1.encoder = sFresh.encoder) ∧
     (sFresh.encoder.isSome = true →
       (sFresh.Encode echoCapacityNative [] none).1.encoder.isSome = true ∧
       (sFresh.SetBitrate echoCapacityNative 0).1.encoder.isSome = true ∧
       (sFresh.GetBitrate echoCapacityNative).1.encoder.isSome = true) ∧
     (sFresh.decoder.isSome = true →
       (sFresh.Decode echoCapacityNative []).1.decoder.isSome = true)) :=
  ⟨by decide, by decide,
    handle_lifecycle echoCapacityNative echoCapacityNative sFresh [] [] none 0
      (by decide) (by decide)⟩
